import Mathlib

set_option maxHeartbeats 1000000

namespace GUIDockerEnv

/-! Shallow embedding of the GUI-Docker-Env repository: the quota-limited
multi-server allocation broker exercised by the client test scripts, the
janitor in src/scripts/remove_all.py, and the response/error classifiers in
the test clients.  The broker server itself is not part of the visible
source; where a definition is reconstructed from the specification rather
than from source code its doc comment says so explicitly. -/

/-- Modelled from the spec: the Quota Ledger (spec section 4.1) of the broker, whose
implementation is not under src (only its clients are).  It holds a per-token
`current` count and a `limit`. -/
structure Ledger where
  current : Nat
  limit : Nat
deriving DecidableEq

/-- Modelled from the spec: `TryAdmit` is an atomic check-and-increment: it reads
`current`, and if `current < limit` increments and returns granted, otherwise
returns denied, with no window between the check and the increment. -/
def tryAdmit (l : Ledger) : Bool × Ledger :=
  if l.current < l.limit then (true, ⟨l.current + 1, l.limit⟩) else (false, l)

/-- Runs a schedule of admission requests (each request is one atomic `tryAdmit`
step, as the spec mandates) against a ledger, returning each request's grant
decision together with the final ledger. -/
def runSchedule : List Nat → Ledger → List (Nat × Bool) × Ledger
  | [], l => ([], l)
  | i :: rest, l =>
    let p := tryAdmit l
    let q := runSchedule rest p.2
    ((i, p.1) :: q.1, q.2)

/-- Runs `n` sequential admission requests against a ledger, returning the list
of grant decisions and the final ledger. -/
def runSeq : Nat → Ledger → List Bool × Ledger
  | 0, l => ([], l)
  | n + 1, l =>
    let p := tryAdmit l
    let q := runSeq n p.2
    (p.1 :: q.1, q.2)

/-- Embedded from src/env_load_test.py line 17: the number of starts the
single-server load test expects to succeed. -/
def MAX_ATTEMPTS : Nat := 10

/-- Embedded from src/env_load_test.py line 18: the number of starts the
single-server load test actually attempts. -/
def TOTAL_ATTEMPTS : Nat := MAX_ATTEMPTS + 2

/-- Embedded from src/env_load_test.py lines 88-89. -/
def expected_success : Nat := MAX_ATTEMPTS

/-- Embedded from src/env_load_test.py line 89. -/
def expected_failure : Nat := 2

/-- Number of granted requests in a result list. -/
def successCount (rs : List Bool) : Nat := (rs.filter id).length

/-- Number of denied requests in a result list. -/
def failureCount (rs : List Bool) : Nat := (rs.filter (fun b => !b)).length

/-- Embedded from src/env_load_test.py line 93: the single-server load test
passes exactly when the success count equals `expected_success` (which the
source sets to `MAX_ATTEMPTS`) and the failure count equals
`expected_failure` (which the source sets to 2). -/
def loadTestPasses (succ failed : Nat) : Bool :=
  succ == expected_success && failed == expected_failure

theorem perm_nat_pair (l : List Nat) (h : l.Perm [0, 1]) :
    l = [0, 1] ∨ l = [1, 0] := by
  have hlen : l.length = 2 := by simpa using h.length_eq
  obtain ⟨x, y, rfl⟩ := List.length_eq_two.mp hlen
  have hx : x = 0 ∨ x = 1 := by
    have hm : x ∈ [0, 1] := h.subset (by simp)
    simpa using hm
  have h0 : (0 : Nat) ∈ [x, y] := h.symm.subset (by simp)
  have h1 : (1 : Nat) ∈ [x, y] := h.symm.subset (by simp)
  simp only [List.mem_cons, List.mem_singleton, List.not_mem_nil, or_false] at h0 h1
  rcases hx with rfl | rfl
  · left
    rcases h1 with h1 | h1
    · omega
    · simp [h1]
  · right
    rcases h0 with h0 | h0
    · omega
    · simp [h0]

/-- Modelled from the spec: the broker's state for the two-backend-server
configuration used by src/env_load_test_multi.py and
src/env_release_reallocate_test.py (two URLs in OSWORLD_BASE_URL).  `c0` and
`c1` are the per-server current counts for the token, `rot` is the Server
Selector's rotation cursor (`false` prefers server 0 on a headroom tie). -/
structure MState2 where
  c0 : Nat
  c1 : Nat
  rot : Bool
deriving DecidableEq

/-- Embedded from src/env_load_test_multi.py line 18: per-server quota. -/
def PER_URL_QUOTA : Nat := 10

/-- Embedded from src/env_load_test_multi.py line 19 with the default two-URL
OSWORLD_BASE_URL of line 10. -/
def URL_COUNT : Nat := 2

/-- Embedded from src/env_load_test_multi.py line 20. -/
def MAX_ATTEMPTS_MULTI : Nat := PER_URL_QUOTA * URL_COUNT

/-- Embedded from src/env_load_test_multi.py line 21. -/
def TOTAL_ATTEMPTS_MULTI : Nat := MAX_ATTEMPTS_MULTI + 2

/-- Modelled from the spec: the Server Selector (spec section 4.2), absent from src.
It routes to the server with the most remaining headroom `limit - current`
among those not yet at capacity; ties are broken by the stable rotation
cursor.  Returns `some false` for server 0, `some true` for server 1, `none`
when both servers are at capacity (quota denial). -/
def choose2 (q : Nat) (s : MState2) : Option Bool :=
  if s.c0 < q then
    if s.c1 < q then
      if q - s.c1 < q - s.c0 then some false
      else if q - s.c0 < q - s.c1 then some true
      else some s.rot
    else some false
  else if s.c1 < q then some true
  else none

/-- Modelled from the spec: one allocation request against the two-server broker:
the Server Selector picks a server (or denies), the chosen server's count is
incremented, and the rotation cursor advances past the chosen server. -/
def allocOnce (q : Nat) (s : MState2) : Option Bool × MState2 :=
  match choose2 q s with
  | none => (none, s)
  | some false => (some false, ⟨s.c0 + 1, s.c1, true⟩)
  | some true => (some true, ⟨s.c0, s.c1 + 1, false⟩)

/-- Runs `n` sequential allocation requests against the two-server broker,
returning the placement decision of each request and the final state. -/
def runAlloc (q : Nat) : Nat → MState2 → List (Option Bool) × MState2
  | 0, s => ([], s)
  | n + 1, s =>
    let p := allocOnce q s
    let q2 := runAlloc q n p.2
    (p.1 :: q2.1, q2.2)

/-- Successful allocations in a multi-server result list. -/
def successCountM (rs : List (Option Bool)) : Nat :=
  (rs.filter Option.isSome).length

/-- Embedded from src/env_load_test_multi.py lines 58-61: per-server usage
counts recorded by the test (server 0 count, server 1 count). -/
def server_usage (rs : List (Option Bool)) : Nat × Nat :=
  ((rs.filter (fun r => r == some false)).length,
   (rs.filter (fun r => r == some true)).length)

/-- Embedded from src/env_load_test_multi.py line 123: all servers were used. -/
def all_servers_used (rs : List (Option Bool)) : Bool :=
  0 < (server_usage rs).1 && 0 < (server_usage rs).2

/-- Embedded from src/env_load_test_multi.py line 124: the balanced-distribution
check passes iff the success count equals the expected total and every
server's usage count equals the per-server quota. -/
def balanced_distribution (rs : List (Option Bool)) : Bool :=
  if successCountM rs == MAX_ATTEMPTS_MULTI then
    (server_usage rs).1 == PER_URL_QUOTA && (server_usage rs).2 == PER_URL_QUOTA
  else false

/-- Embedded from src/env_release_reallocate_test.py line 29. -/
def RELEASE_COUNT : Nat := 3

/-- Embedded from src/env_release_reallocate_test.py line 30. -/
def SECOND_WAVE_COUNT : Nat := RELEASE_COUNT + 1

/-- Modelled from the spec: releasing `k` instances held on server 0 decrements
that server's current count by `k` (spec section 4.1 `Release`, reversed placement). -/
def releaseOn0 (k : Nat) (s : MState2) : MState2 := ⟨s.c0 - k, s.c1, s.rot⟩

/-- A Docker container as the janitor in src/scripts/remove_all.py sees it:
`created` is the parsed `Created` timestamp in epoch seconds (`none` models any
exception while reading or parsing the attribute, the `except` branch of
`get_container_age_minutes`); `removeOk` is whether `container.remove(force=True)`
succeeds (`false` models the exception of lines 145-147). -/
structure Container where
  created : Option Int
  removeOk : Bool
deriving DecidableEq

/-- Embedded from src/scripts/remove_all.py lines 47-75: the container's age in
minutes is `int(age_seconds / 60)` — Python `int()` truncates toward zero, which
is `Int.tdiv` — computed from `now` minus the parsed creation time, or `none`
when the timestamp cannot be obtained (the `except` branch returns `None`). -/
def get_container_age_minutes (now : Int) (c : Container) : Option Int :=
  match c.created with
  | none => none
  | some t => some (Int.tdiv (now - t) 60)

/-- The spec's wording of the age computation: the integer floor of
`(now - Created) / 60` seconds. -/
def floorAgeMinutes (now t : Int) : Int := Int.fdiv (now - t) 60

/-- Embedded from src/scripts/remove_all.py lines 123-154: how the sweep's loop
body treats one container, as the triple (increment to `removed_count`,
increment to `failed_count`, whether the container was actually removed).
An uncomputable age is counted as a failure and skipped (lines 128-131); a
sufficiently old container is counted as removed in dry-run mode (lines
137-139), actually removed when `remove` succeeds (lines 141-144), and counted
as a failure when `remove` raises (lines 145-147); a too-young container is
left alone (lines 148-149). -/
def processOne (now minAge : Int) (dryRun : Bool) (c : Container) :
    Nat × Nat × Bool :=
  match get_container_age_minutes now c with
  | none => (0, 1, false)
  | some age =>
    if minAge ≤ age then
      if dryRun then (1, 0, false)
      else if c.removeOk then (1, 0, true)
      else (0, 1, false)
    else (0, 0, false)

/-- Embedded from src/scripts/remove_all.py lines 123-154: the sweep's loop over
the matching containers, accumulating `(removed_count, failed_count)`.  Each
iteration is wrapped in its own try/except, so one container's outcome never
affects whether the remaining containers are processed. -/
def sweepCounts (now minAge : Int) (dryRun : Bool) : List Container → Nat × Nat
  | [] => (0, 0)
  | c :: rest =>
    let p := processOne now minAge dryRun c
    let q := sweepCounts now minAge dryRun rest
    (p.1 + q.1, p.2.1 + q.2)

/-- The containers a sweep actually removes. -/
def removedSet (now minAge : Int) (dryRun : Bool) (cs : List Container) :
    List Container :=
  cs.filter (fun c => (processOne now minAge dryRun c).2.2)

/-- The containers a dry-run sweep reports as would-remove (it increments
`removed_count` for them without touching them). -/
def wouldRemoveSet (now minAge : Int) (cs : List Container) : List Container :=
  cs.filter (fun c => (processOne now minAge true c).1 == 1)

/-- The containers whose age is computable and at or above the threshold: the
sweep's selection predicate of line 136. -/
def selectedSet (now minAge : Int) (cs : List Container) : List Container :=
  cs.filter (fun c =>
    match get_container_age_minutes now c with
    | some age => decide (minAge ≤ age)
    | none => false)

/-- Embedded from src/scripts/remove_all.py lines 78-160: `remove_old_containers`
returns `(0, 0)` when connecting to Docker fails (lines 90-95) and otherwise
the accumulated counts of the sweep. -/
def remove_old_containers (connectOk : Bool) (now minAge : Int) (dryRun : Bool)
    (cs : List Container) : Nat × Nat :=
  if connectOk then sweepCounts now minAge dryRun cs else (0, 0)

/-- Embedded from src/scripts/remove_all.py lines 186-191: the script exits with
status 1 when the sweep reported any failure, else 0. -/
def mainExit (connectOk : Bool) (now minAge : Int) (dryRun : Bool)
    (cs : List Container) : Nat :=
  if 0 < (remove_old_containers connectOk now minAge dryRun cs).2 then 1 else 0

/-- ASCII lowercasing of one character, as Python `str.lower()` acts on the
ASCII range (all characters of the patterns involved are ASCII or unaffected
by lowercasing). -/
def asciiLower (c : Char) : Char :=
  if 'A' ≤ c ∧ c ≤ 'Z' then Char.ofNat (c.toNat + 32) else c

/-- Lowercase an entire message, modelling `error_msg.lower()`. -/
def lowerStr (s : List Char) : List Char := s.map asciiLower

/-- Whether `needle` is a prefix of `hay` (character lists). -/
def startsWithL : List Char → List Char → Bool
  | [], _ => true
  | _ :: _, [] => false
  | a :: as, b :: bs => a == b && startsWithL as bs

/-- Whether `needle` occurs as a contiguous substring of `hay`, modelling the
Python `in` operator on strings. -/
def containsSub (needle : List Char) : List Char → Bool
  | [] => needle.isEmpty
  | c :: t => startsWithL needle (c :: t) || containsSub needle t

/-- The quota-denial phrase the clients pattern-match. -/
def quotaPhrase : List Char := "quota exceeded".data

/-- The fallback pattern "429" of the concurrency test. -/
def str429 : List Char := "429".data

/-- The fallback pattern of the load test: the Chinese word for "exceeded". -/
def strExceededZh : List Char := "超过".data

/-- Embedded from src/env_test_parallel_test.py line 82: the concurrency test
treats an error as a quota rejection iff the lowercased message contains
"quota exceeded" or the message contains "429". -/
def isQuotaErrorParallel (msg : List Char) : Bool :=
  containsSub quotaPhrase (lowerStr msg) || containsSub str429 msg

/-- Embedded from src/env_load_test.py line 65: the load test treats an error
as a quota rejection iff the lowercased message contains "quota exceeded" or
the message contains the Chinese word for "exceeded". -/
def isQuotaErrorLoad (msg : List Char) : Bool :=
  containsSub quotaPhrase (lowerStr msg) || containsSub strExceededZh msg

/-- `needle` occurs (at some offset) in `hay`, as a proposition. -/
def OccursIn (needle hay : List Char) : Prop :=
  ∃ k, startsWithL needle (List.drop k hay) = true

/-- Modelled from the spec: a quota denial from /start_emulator is surfaced with a
message containing the phrase "quota exceeded" (spec section 4.4); the broker that
produces the message is not under src.  Stated case-insensitively on the
lowered message so any capitalisation of the phrase qualifies. -/
def QuotaDenialMessage (msg : List Char) : Prop :=
  OccursIn quotaPhrase (lowerStr msg)

/-- A JSON-decoded Python value, as the test clients handle `r.json()`. -/
inductive PyVal where
  | pnull : PyVal
  | pbool : Bool → PyVal
  | pint : Int → PyVal
  | pstr : List Char → PyVal
  | parr : List PyVal → PyVal
  | pobj : List (List Char × PyVal) → PyVal

instance : Inhabited PyVal := ⟨PyVal.pnull⟩

/-- Python truthiness of a JSON value. -/
def truthy : PyVal → Bool
  | .pnull => false
  | .pbool b => b
  | .pint n => !(n == 0)
  | .pstr s => !s.isEmpty
  | .parr l => !l.isEmpty
  | .pobj m => !m.isEmpty

/-- Python `x == 0` on a JSON value (`False == 0` is `True` in Python). -/
def pyEqZero : PyVal → Bool
  | .pint n => n == 0
  | .pbool b => !b
  | _ => false

/-- Python `dict.get`: the first binding of `key`, if any. -/
def dictGet : List (List Char × PyVal) → List Char → Option PyVal
  | [], _ => none
  | (k, v) :: rest, key => if k = key then some v else dictGet rest key

/-- The key "text". -/
def keyText : List Char := "text".data

/-- The key "code". -/
def keyCode : List Char := "code".data

/-- The key "data". -/
def keyData : List Char := "data".data

/-- The key "emulator_id". -/
def keyEmulatorId : List Char := "emulator_id".data

/-- A /start_emulator response as the client sees it: either a transport-level
exception (the outer `except` of src/tests/concurrency_test.py lines 89-90) or
an HTTP response with its `r.ok` flag, status code, JSON-decoded body (`none`
when `r.json()` raises) and raw text. -/
inductive StartResp where
  | exn : List Char → StartResp
  | http : Bool → Nat → Option PyVal → List Char → StartResp

/-- Embedded from src/tests/concurrency_test.py lines 79-82: `data` is the
decoded JSON body, or the synthetic dict containing only the raw text when
decoding fails. -/
def respData : Option PyVal → List Char → PyVal
  | some v, _ => v
  | none, txt => .pobj [(keyText, .pstr txt)]

/-- Embedded from src/tests/concurrency_test.py lines 64-90: the success flag of
`start_emulator`.  The source condition is
`r.ok and isinstance(data, dict) and data.get("code") == 0 and
data.get("data", {}).get("emulator_id")`; a `data` field that is present but
not a dict makes `.get` raise `AttributeError`, which the surrounding
`except` turns into a failure, and a transport exception is likewise a
failure. -/
def start_emulator_ok : StartResp → Bool
  | .exn _ => false
  | .http ok _ body txt =>
    if ok then
      match respData body txt with
      | .pobj m =>
        if pyEqZero ((dictGet m keyCode).getD .pnull) then
          match dictGet m keyData with
          | none => false
          | some (.pobj m2) =>
            match dictGet m2 keyEmulatorId with
            | none => false
            | some v => truthy v
          | some _ => false
        else false
      | _ => false
    else false

/-- The claim's wording of the success condition: HTTP status OK, JSON body a
dict whose "code" equals 0 (under Python equality), and a present, truthy
(non-empty) `data.emulator_id`. -/
def ClaimSuccess : StartResp → Prop
  | .exn _ => False
  | .http ok _ body _ =>
    ok = true ∧
    ∃ m, body = some (.pobj m) ∧
      pyEqZero ((dictGet m keyCode).getD .pnull) = true ∧
      ∃ m2 v, dictGet m keyData = some (.pobj m2) ∧
        dictGet m2 keyEmulatorId = some v ∧ truthy v = true

/-- C1: Under a quota limit of 2 with one instance already held (current = 1),
when two concurrent start_emulator requests for the same token fire
simultaneously, exactly one of the two succeeds and the token's current count
observed afterward equals exactly 2, never 3, for every interleaving of the
two requests (every permutation of the two atomic admission steps). -/
theorem C1_race_no_overcommit (sched : List Nat) (h : sched.Perm [0, 1]) :
    ((runSchedule sched ⟨1, 2⟩).1.filter (fun r => r.2)).length = 1 ∧
    (runSchedule sched ⟨1, 2⟩).2.current = 2 := by
  rcases perm_nat_pair sched h with rfl | rfl
  · exact ⟨by decide, by decide⟩
  · exact ⟨by decide, by decide⟩

/-- Witness for C1 at the interleaving that runs request 0 first. -/
theorem C1_race_no_overcommit_witness :
    (([0, 1] : List Nat).Perm [0, 1]) ∧
    (((runSchedule [0, 1] ⟨1, 2⟩).1.filter (fun r => r.2)).length = 1 ∧
      (runSchedule [0, 1] ⟨1, 2⟩).2.current = 2) :=
  ⟨List.Perm.refl _, C1_race_no_overcommit [0, 1] (List.Perm.refl _)⟩

/-- C3 counterexample: the single-server load test's constants are
MAX_ATTEMPTS = 10 and TOTAL_ATTEMPTS = 12, not the limit-4 / 6-call scenario
the claim states; moreover with 4 successes and 2 failures (the outcome the
claim predicts for its scenario) the test's pass check is false, since it
compares the success count against 10. -/
theorem C3_counterexample :
    MAX_ATTEMPTS = 10 ∧ TOTAL_ATTEMPTS = 12 ∧ loadTestPasses 4 2 = false := by
  decide

/-- C3 amended: given a single server with limit = MAX_ATTEMPTS = 10, the 12
sequential start_emulator calls of the load test succeed for exactly the
first 10 and are denied for the remaining 2, and the test passes: the
success count equals the expected limit and the failure count equals 2. -/
theorem C3_single_server_load :
    (runSeq TOTAL_ATTEMPTS ⟨0, MAX_ATTEMPTS⟩).1 =
      List.replicate MAX_ATTEMPTS true ++ List.replicate 2 false ∧
    (runSeq TOTAL_ATTEMPTS ⟨0, MAX_ATTEMPTS⟩).2.current = MAX_ATTEMPTS ∧
    loadTestPasses (successCount (runSeq TOTAL_ATTEMPTS ⟨0, MAX_ATTEMPTS⟩).1)
      (failureCount (runSeq TOTAL_ATTEMPTS ⟨0, MAX_ATTEMPTS⟩).1) = true := by
  refine ⟨by decide, by decide, by decide⟩

/-- C4: Given 2 backend servers each with per-server limit 10, 20 sequential
allocations all succeed and are distributed exactly 10 to each server, the
21st and 22nd allocation attempts are denied, and the multi-server test's
balanced-distribution check passes iff the success count equals the expected
total and every server's usage count equals the per-server quota (which it
does here). -/
theorem C4_multi_server_distribution :
    ((runAlloc PER_URL_QUOTA TOTAL_ATTEMPTS_MULTI ⟨0, 0, false⟩).1.take
        MAX_ATTEMPTS_MULTI).all Option.isSome = true ∧
    (runAlloc PER_URL_QUOTA TOTAL_ATTEMPTS_MULTI ⟨0, 0, false⟩).1.drop
        MAX_ATTEMPTS_MULTI = [none, none] ∧
    server_usage (runAlloc PER_URL_QUOTA TOTAL_ATTEMPTS_MULTI ⟨0, 0, false⟩).1 =
      (PER_URL_QUOTA, PER_URL_QUOTA) ∧
    balanced_distribution
      (runAlloc PER_URL_QUOTA TOTAL_ATTEMPTS_MULTI ⟨0, 0, false⟩).1 = true ∧
    all_servers_used
      (runAlloc PER_URL_QUOTA TOTAL_ATTEMPTS_MULTI ⟨0, 0, false⟩).1 = true ∧
    (∀ rs : List (Option Bool), balanced_distribution rs = true ↔
      (successCountM rs = MAX_ATTEMPTS_MULTI ∧
       (server_usage rs).1 = PER_URL_QUOTA ∧
       (server_usage rs).2 = PER_URL_QUOTA)) := by
  refine ⟨by decide, by decide, by decide, by decide, by decide, ?_⟩
  intro rs
  unfold balanced_distribution
  split_ifs with h
  · simp only [beq_iff_eq] at h
    simp [h]
  · simp only [beq_iff_eq] at h
    simp [h]

/-- When server 1 is full and server 0 has headroom `h`, a burst of `m`
sequential allocations grants exactly `min m h` of them, all on server 0, in
order, and leaves server 0 with headroom `h - min m h` and server 1 full. -/
theorem runAlloc_otherFull (q : Nat) :
    ∀ (m h : Nat) (r : Bool), h ≤ q →
    (runAlloc q m ⟨q - h, q, r⟩).1 =
      List.replicate (min m h) (some false) ++
        List.replicate (m - min m h) none ∧
    (runAlloc q m ⟨q - h, q, r⟩).2.c0 = q - (h - min m h) ∧
    (runAlloc q m ⟨q - h, q, r⟩).2.c1 = q := by
  intro m
  induction m with
  | zero =>
    intro h r _
    simp [runAlloc]
  | succ n ih =>
    intro h r hh
    cases h with
    | zero =>
      have ha : allocOnce q ⟨q, q, r⟩ = (none, ⟨q, q, r⟩) := by
        simp [allocOnce, choose2]
      have hih := ih 0 r (Nat.zero_le _)
      simp only [Nat.min_zero, Nat.sub_zero, List.replicate_zero,
        List.nil_append] at hih ⊢
      simp only [runAlloc, ha]
      refine ⟨?_, hih.2.1, hih.2.2⟩
      rw [hih.1, List.replicate_succ]
    | succ h' =>
      have hlt : q - (h' + 1) < q := by omega
      have hc : choose2 q ⟨q - (h' + 1), q, r⟩ = some false := by
        simp [choose2, hlt]
      have hstate : q - (h' + 1) + 1 = q - h' := by omega
      have ha : allocOnce q ⟨q - (h' + 1), q, r⟩ =
          (some false, ⟨q - h', q, true⟩) := by
        simp [allocOnce, hc, hstate]
      have hih := ih h' true (by omega)
      have hmin : min (n + 1) (h' + 1) = min n h' + 1 := Nat.succ_min_succ n h'
      simp only [runAlloc, ha]
      refine ⟨?_, ?_, ?_⟩
      · rw [hih.1, hmin, List.replicate_succ, Nat.succ_sub_succ]
        simp
      · rw [hih.2.1, hmin, Nat.succ_sub_succ]
      · exact hih.2.2

/-- C5: After filling all quota (2 servers x 10) and then releasing K
instances on server 0, that server's available (limit - current) equals K —
so it reaches at least K as soon as the release is processed, within any
polling wait — and a subsequent wave of K+1 new allocation attempts yields
exactly K successes (hence at least K), every one of which lands back on the
just-freed server (hence at least K-1 of them do). -/
theorem C5_release_reuse (K : Nat) (hK : 0 < K) (hKQ : K ≤ PER_URL_QUOTA) :
    PER_URL_QUOTA -
      (releaseOn0 K
        (runAlloc PER_URL_QUOTA MAX_ATTEMPTS_MULTI ⟨0, 0, false⟩).2).c0 = K ∧
    successCountM (runAlloc PER_URL_QUOTA (K + 1)
      (releaseOn0 K
        (runAlloc PER_URL_QUOTA MAX_ATTEMPTS_MULTI ⟨0, 0, false⟩).2)).1 = K ∧
    ((runAlloc PER_URL_QUOTA (K + 1)
      (releaseOn0 K
        (runAlloc PER_URL_QUOTA MAX_ATTEMPTS_MULTI ⟨0, 0, false⟩).2)).1.filter
          (fun r => r == some false)).length = K ∧
    K - 1 ≤ ((runAlloc PER_URL_QUOTA (K + 1)
      (releaseOn0 K
        (runAlloc PER_URL_QUOTA MAX_ATTEMPTS_MULTI ⟨0, 0, false⟩).2)).1.filter
          (fun r => r == some false)).length := by
  have hQ : PER_URL_QUOTA = 10 := rfl
  have hfill : (runAlloc PER_URL_QUOTA MAX_ATTEMPTS_MULTI ⟨0, 0, false⟩).2 =
      ⟨10, 10, false⟩ := by decide
  have hrel : releaseOn0 K
      (runAlloc PER_URL_QUOTA MAX_ATTEMPTS_MULTI ⟨0, 0, false⟩).2 =
      ⟨10 - K, 10, false⟩ := by rw [hfill]; rfl
  have hrun := runAlloc_otherFull 10 (K + 1) K false (by omega)
  have hmin : min (K + 1) K = K := Nat.min_eq_right (Nat.le_succ K)
  have hone : K + 1 - K = 1 := by omega
  rw [hmin, hone] at hrun
  have hfilterA : ((List.replicate K (some false) ++
      List.replicate 1 (none : Option Bool)).filter
        (fun r => r == some false)).length = K := by
    simp [List.filter_append, List.filter_replicate]
  have hsucc : successCountM (List.replicate K (some false) ++
      List.replicate 1 (none : Option Bool)) = K := by
    simp [successCountM, List.filter_append, List.filter_replicate]
  rw [hQ] at hKQ hrel ⊢
  rw [hrel]
  refine ⟨?_, ?_, ?_, ?_⟩
  · show 10 - (10 - K) = K
    omega
  · rw [hrun.1, hsucc]
  · rw [hrun.1, hfilterA]
  · rw [hrun.1, hfilterA]
    omega

/-- Witness for C5 at the test's configured release count K = RELEASE_COUNT = 3,
whose second wave has SECOND_WAVE_COUNT = 4 attempts. -/
theorem C5_release_reuse_witness :
    0 < RELEASE_COUNT ∧ RELEASE_COUNT ≤ PER_URL_QUOTA ∧
    (PER_URL_QUOTA -
      (releaseOn0 RELEASE_COUNT
        (runAlloc PER_URL_QUOTA MAX_ATTEMPTS_MULTI ⟨0, 0, false⟩).2).c0 =
          RELEASE_COUNT ∧
    successCountM (runAlloc PER_URL_QUOTA SECOND_WAVE_COUNT
      (releaseOn0 RELEASE_COUNT
        (runAlloc PER_URL_QUOTA MAX_ATTEMPTS_MULTI ⟨0, 0, false⟩).2)).1 =
          RELEASE_COUNT ∧
    ((runAlloc PER_URL_QUOTA SECOND_WAVE_COUNT
      (releaseOn0 RELEASE_COUNT
        (runAlloc PER_URL_QUOTA MAX_ATTEMPTS_MULTI ⟨0, 0, false⟩).2)).1.filter
          (fun r => r == some false)).length = RELEASE_COUNT ∧
    RELEASE_COUNT - 1 ≤ ((runAlloc PER_URL_QUOTA SECOND_WAVE_COUNT
      (releaseOn0 RELEASE_COUNT
        (runAlloc PER_URL_QUOTA MAX_ATTEMPTS_MULTI ⟨0, 0, false⟩).2)).1.filter
          (fun r => r == some false)).length) :=
  ⟨by decide, by decide, C5_release_reuse RELEASE_COUNT (by decide) (by decide)⟩

theorem processOne_dryRun_no_removal (now minAge : Int) (c : Container) :
    (processOne now minAge true c).2.2 = false := by
  unfold processOne
  cases get_container_age_minutes now c
  · rfl
  · simp only
    split_ifs <;> rfl

theorem processOne_dryRun_select (now minAge : Int) (c : Container) :
    ((processOne now minAge true c).1 == 1) =
      (match get_container_age_minutes now c with
       | some age => decide (minAge ≤ age)
       | none => false) := by
  unfold processOne
  cases get_container_age_minutes now c
  · rfl
  · simp only
    split_ifs with h <;> simp [h]

theorem processOne_real_removal (now minAge : Int) (c : Container) :
    (processOne now minAge false c).2.2 =
      (c.removeOk &&
        match get_container_age_minutes now c with
        | some age => decide (minAge ≤ age)
        | none => false) := by
  unfold processOne
  cases get_container_age_minutes now c
  · simp
  · simp only
    split_ifs with h h2 <;> simp_all

theorem removedSet_characterisation (now minAge : Int) (cs : List Container) :
    removedSet now minAge true cs = [] ∧
    wouldRemoveSet now minAge cs = selectedSet now minAge cs ∧
    removedSet now minAge false cs =
      (selectedSet now minAge cs).filter (fun c => c.removeOk) := by
  refine ⟨?_, ?_, ?_⟩
  · unfold removedSet
    rw [List.filter_eq_nil_iff]
    intro c _
    simp [processOne_dryRun_no_removal]
  · unfold wouldRemoveSet selectedSet
    exact List.filter_congr (fun c _ => processOne_dryRun_select now minAge c)
  · unfold removedSet selectedSet
    rw [List.filter_filter]
    exact List.filter_congr (fun c _ => processOne_real_removal now minAge c)

/-- C2 counterexample: a container 100 minutes old with threshold 0 is
selected, yet a real run does not remove it when `container.remove` raises —
it is counted as a failure — while the dry run reports it as would-remove.
So "removes iff age is at least the threshold" is false of a real run, and
the dry-run would-remove set can differ from the set a real run removes. -/
theorem C2_counterexample :
    get_container_age_minutes 6000 ⟨some 0, false⟩ = some 100 ∧
    ((0 : Int) ≤ 100) ∧
    (processOne 6000 0 false ⟨some 0, false⟩).2.2 = false ∧
    (processOne 6000 0 false ⟨some 0, false⟩).2.1 = 1 ∧
    removedSet 6000 0 false [⟨some 0, false⟩] = [] ∧
    wouldRemoveSet 6000 0 [⟨some 0, false⟩] = [⟨some 0, false⟩] := by
  refine ⟨by decide, by decide, by decide, by decide, by decide, by decide⟩

/-- C2 amended: for every container whose age can be computed, the sweep
selects it for removal iff age_minutes >= min_age_minutes; the dry run counts
exactly the selected containers as would-remove and removes nothing, and a
real run removes exactly the selected containers whose removal succeeds,
counting a selected container whose removal fails as a failure instead. -/
theorem C2_age_reclamation (now minAge : Int) (c : Container) (age : Int)
    (h : get_container_age_minutes now c = some age) :
    ((processOne now minAge true c).1 = 1 ↔ minAge ≤ age) ∧
    (processOne now minAge true c).2.2 = false ∧
    ((processOne now minAge false c).2.2 = true ↔
      (minAge ≤ age ∧ c.removeOk = true)) ∧
    ((processOne now minAge false c).2.1 = 1 ↔
      (minAge ≤ age ∧ c.removeOk = false)) ∧
    (∀ cs : List Container,
      removedSet now minAge true cs = [] ∧
      wouldRemoveSet now minAge cs = selectedSet now minAge cs ∧
      removedSet now minAge false cs =
        (selectedSet now minAge cs).filter (fun c2 => c2.removeOk)) := by
  refine ⟨?_, processOne_dryRun_no_removal now minAge c, ?_, ?_,
    fun cs => removedSet_characterisation now minAge cs⟩
  · unfold processOne
    rw [h]
    simp only
    split_ifs with hle <;> simp [hle]
  · unfold processOne
    rw [h]
    simp only
    split_ifs with hle hok <;> simp_all
  · unfold processOne
    rw [h]
    simp only
    split_ifs with hle hok <;> simp_all

/-- Witness for C2 at a 100-minute-old container with threshold 0 whose
removal succeeds. -/
theorem C2_age_reclamation_witness :
    get_container_age_minutes 6000 ⟨some 0, true⟩ = some 100 ∧
    (((processOne 6000 0 true ⟨some 0, true⟩).1 = 1 ↔ (0 : Int) ≤ 100) ∧
    (processOne 6000 0 true ⟨some 0, true⟩).2.2 = false ∧
    ((processOne 6000 0 false ⟨some 0, true⟩).2.2 = true ↔
      ((0 : Int) ≤ 100 ∧ (Container.mk (some 0) true).removeOk = true)) ∧
    ((processOne 6000 0 false ⟨some 0, true⟩).2.1 = 1 ↔
      ((0 : Int) ≤ 100 ∧ (Container.mk (some 0) true).removeOk = false)) ∧
    (∀ cs : List Container,
      removedSet 6000 0 true cs = [] ∧
      wouldRemoveSet 6000 0 cs = selectedSet 6000 0 cs ∧
      removedSet 6000 0 false cs =
        (selectedSet 6000 0 cs).filter (fun c2 => c2.removeOk))) :=
  ⟨by decide, C2_age_reclamation 6000 0 ⟨some 0, true⟩ 100 (by decide)⟩

theorem sweepCounts_append (now minAge : Int) (dryRun : Bool)
    (l1 l2 : List Container) :
    sweepCounts now minAge dryRun (l1 ++ l2) =
      ((sweepCounts now minAge dryRun l1).1 +
        (sweepCounts now minAge dryRun l2).1,
       (sweepCounts now minAge dryRun l1).2 +
        (sweepCounts now minAge dryRun l2).2) := by
  induction l1 with
  | nil => simp [sweepCounts]
  | cons c t ih =>
    have h1 : sweepCounts now minAge dryRun ((c :: t) ++ l2) =
        ((processOne now minAge dryRun c).1 +
          (sweepCounts now minAge dryRun (t ++ l2)).1,
         (processOne now minAge dryRun c).2.1 +
          (sweepCounts now minAge dryRun (t ++ l2)).2) := rfl
    have h2 : sweepCounts now minAge dryRun (c :: t) =
        ((processOne now minAge dryRun c).1 +
          (sweepCounts now minAge dryRun t).1,
         (processOne now minAge dryRun c).2.1 +
          (sweepCounts now minAge dryRun t).2) := rfl
    rw [h1, h2, ih]
    simp only [Prod.ext_iff]
    constructor <;> omega

theorem processOne_failed_zero_removed (now minAge : Int) (dryRun : Bool)
    (c : Container) (h : (processOne now minAge dryRun c).2.1 = 1) :
    (processOne now minAge dryRun c).1 = 0 := by
  unfold processOne at h ⊢
  cases hga : get_container_age_minutes now c
  · rfl
  · simp only at h ⊢
    split_ifs at h ⊢ <;> simp_all

/-- C6: during a janitor sweep, a container whose processing or removal fails
contributes exactly one failure, and the sweep still processes every other
container: the counts of the whole sweep are the counts of the containers
before the bad one, plus the bad one's failure, plus the counts of the
containers after it, returned as the pair (removed_count, failed_count). -/
theorem C6_sweep_error_containment (now minAge : Int) (dryRun : Bool)
    (pre post : List Container) (bad : Container)
    (hbad : (processOne now minAge dryRun bad).2.1 = 1) :
    remove_old_containers true now minAge dryRun (pre ++ bad :: post) =
      ((sweepCounts now minAge dryRun pre).1 +
        (sweepCounts now minAge dryRun post).1,
       (sweepCounts now minAge dryRun pre).2 + 1 +
        (sweepCounts now minAge dryRun post).2) := by
  unfold remove_old_containers
  rw [if_pos rfl, sweepCounts_append]
  have h0 := processOne_failed_zero_removed now minAge dryRun bad hbad
  simp only [sweepCounts, h0, hbad]
  refine Prod.ext ?_ ?_ <;> (simp; try omega)

/-- Witness for C6: a sweep over a good container, a container whose age
cannot be computed (a processing failure), and another good container removes
the two good ones and reports one failure. -/
theorem C6_sweep_error_containment_witness :
    (processOne 600 0 false ⟨none, true⟩).2.1 = 1 ∧
    remove_old_containers true 600 0 false
        ([⟨some 0, true⟩] ++ ⟨none, true⟩ :: [⟨some 0, true⟩]) =
      ((sweepCounts 600 0 false [⟨some 0, true⟩]).1 +
        (sweepCounts 600 0 false [⟨some 0, true⟩]).1,
       (sweepCounts 600 0 false [⟨some 0, true⟩]).2 + 1 +
        (sweepCounts 600 0 false [⟨some 0, true⟩]).2) :=
  ⟨by decide, C6_sweep_error_containment 600 0 false [⟨some 0, true⟩]
    [⟨some 0, true⟩] ⟨none, true⟩ (by decide)⟩

/-- C9 counterexample: for a container whose Created timestamp lies 90 seconds
in the future of `now` (clock skew), the code computes `int(-90 / 60) = -1`
(truncation toward zero), while the floor of -90 / 60 is -2; so
`get_container_age_minutes` is not the floor of (now - Created) / 60. -/
theorem C9_counterexample :
    get_container_age_minutes 0 ⟨some 90, true⟩ = some (-1) ∧
    floorAgeMinutes 0 90 = -2 ∧ ¬ ((-1 : Int) = -2) := by
  refine ⟨by decide, by decide, by decide⟩

/-- C9 amended: when the Created timestamp parses, the age is
(now - Created) / 60 truncated toward zero — which agrees with the floor
whenever now is at or after Created — and on any exception the function
returns None instead of raising; the sweep counts every None-age container as
a failure and leaves it alone, continuing with the rest. -/
theorem C9_age_computation (now t minAge : Int) (dryRun : Bool) (c : Container)
    (hc : c.created = some t) :
    get_container_age_minutes now c = some (Int.tdiv (now - t) 60) ∧
    (t ≤ now → Int.tdiv (now - t) 60 = floorAgeMinutes now t) ∧
    (∀ c2 : Container, c2.created = none →
      get_container_age_minutes now c2 = none ∧
      processOne now minAge dryRun c2 = (0, 1, false)) := by
  refine ⟨by simp [get_container_age_minutes, hc], ?_, ?_⟩
  · intro hle
    unfold floorAgeMinutes
    exact (Int.fdiv_eq_tdiv (by omega) (by norm_num)).symm
  · intro c2 h2
    refine ⟨by simp [get_container_age_minutes, h2], ?_⟩
    simp [processOne, get_container_age_minutes, h2]

/-- Witness for C9 at a container created at epoch second 0 observed at epoch
second 6000. -/
theorem C9_age_computation_witness :
    get_container_age_minutes 6000 ⟨some 0, true⟩ = some 100 :=
  (C9_age_computation 6000 0 0 false ⟨some 0, true⟩ rfl).1.trans (by decide)

/-- C10: the cleanup script exits with status 1 iff the sweep reported at
least one per-container failure and with status 0 otherwise; in particular a
failure to connect to Docker makes the sweep return (0, 0) and the script
exit with status 0. -/
theorem C10_exit_status (connectOk : Bool) (now minAge : Int) (dryRun : Bool)
    (cs : List Container) :
    (mainExit connectOk now minAge dryRun cs = 1 ↔
      1 ≤ (remove_old_containers connectOk now minAge dryRun cs).2) ∧
    (mainExit connectOk now minAge dryRun cs = 0 ↔
      (remove_old_containers connectOk now minAge dryRun cs).2 = 0) ∧
    remove_old_containers false now minAge dryRun cs = (0, 0) ∧
    mainExit false now minAge dryRun cs = 0 := by
  refine ⟨?_, ?_, by simp [remove_old_containers],
    by simp [mainExit, remove_old_containers]⟩
  · unfold mainExit
    split_ifs with h
    · exact iff_of_true rfl h
    · exact iff_of_false (by simp) h
  · unfold mainExit
    split_ifs with h
    · exact iff_of_false (by simp) (by omega)
    · exact iff_of_true rfl (by omega)

theorem containsSub_iff (needle : List Char) (hay : List Char) :
    containsSub needle hay = true ↔ OccursIn needle hay := by
  induction hay with
  | nil =>
    unfold containsSub OccursIn
    constructor
    · intro h
      exact ⟨0, by cases needle <;> simp_all [startsWithL]⟩
    · rintro ⟨k, hk⟩
      cases needle <;> simp_all [startsWithL]
  | cons c t ih =>
    unfold containsSub
    rw [Bool.or_eq_true, ih]
    unfold OccursIn
    constructor
    · rintro (h | ⟨k, hk⟩)
      · exact ⟨0, h⟩
      · exact ⟨k + 1, by simpa using hk⟩
    · rintro ⟨k, hk⟩
      cases k with
      | zero => exact Or.inl (by simpa using hk)
      | succ k2 => exact Or.inr ⟨k2, by simpa using hk⟩

/-- A denial-like message containing "429" but not the quota phrase. -/
def msgError429 : List Char := "Error 429".data

/-- A denial-like message containing the Chinese word for "exceeded" but not
the quota phrase. -/
def msgExceededZh : List Char := "启动失败: 超过配额".data

/-- A spec-conformant denial message carrying the quota phrase (capitalised). -/
def msgQuotaDenial : List Char := "Error: QUOTA Exceeded".data

/-- C7 counterexample: the clients do not recognise quota rejections
exclusively by the phrase "quota exceeded": the concurrency test also accepts
any message containing "429", and the load test any message containing the
Chinese word for "exceeded", neither of which contains the phrase under
case-insensitive matching. -/
theorem C7_counterexample :
    isQuotaErrorParallel msgError429 = true ∧
    containsSub quotaPhrase (lowerStr msgError429) = false ∧
    isQuotaErrorLoad msgExceededZh = true ∧
    containsSub quotaPhrase (lowerStr msgExceededZh) = false := by
  refine ⟨by decide, by decide, by decide, by decide⟩

/-- C7 amended: a quota denial is surfaced with a message containing "quota
exceeded" (modelled from the spec, broker not in src), and the clients
recognise a denial as a quota rejection iff the lowercased message contains
"quota exceeded" or the message contains "429" (concurrency test) / the
Chinese word for "exceeded" (load test); in particular every message
containing the phrase, in any capitalisation, is recognised by both. -/
theorem C7_quota_recognition (msg : List Char) :
    (isQuotaErrorParallel msg = true ↔
      (OccursIn quotaPhrase (lowerStr msg) ∨ OccursIn str429 msg)) ∧
    (isQuotaErrorLoad msg = true ↔
      (OccursIn quotaPhrase (lowerStr msg) ∨ OccursIn strExceededZh msg)) ∧
    (QuotaDenialMessage msg →
      isQuotaErrorParallel msg = true ∧ isQuotaErrorLoad msg = true) := by
  have h1 := containsSub_iff quotaPhrase (lowerStr msg)
  have h2 := containsSub_iff str429 msg
  have h3 := containsSub_iff strExceededZh msg
  refine ⟨?_, ?_, ?_⟩
  · unfold isQuotaErrorParallel
    rw [Bool.or_eq_true, h1, h2]
  · unfold isQuotaErrorLoad
    rw [Bool.or_eq_true, h1, h3]
  · intro hd
    unfold QuotaDenialMessage at hd
    constructor
    · unfold isQuotaErrorParallel
      rw [Bool.or_eq_true, h1]
      exact Or.inl hd
    · unfold isQuotaErrorLoad
      rw [Bool.or_eq_true, h1]
      exact Or.inl hd

/-- Witness for C7 at a capitalised denial message: it satisfies the
spec-modelled denial-message shape and both clients recognise it. -/
theorem C7_quota_recognition_witness :
    isQuotaErrorParallel msgQuotaDenial = true ∧
    isQuotaErrorLoad msgQuotaDenial = true :=
  (C7_quota_recognition msgQuotaDenial).2.2 ⟨7, by decide⟩

/-- C8: the concurrency test's start_emulator client classifies a response as
a success iff the HTTP status is OK, the JSON body is a dict with code equal
to 0 (under Python equality), and data.emulator_id is present and truthy
(for a string: non-empty); in every other case — including non-JSON bodies,
a non-dict data field (whose attribute error the client catches) and
transport exceptions — it reports a failure. -/
theorem C8_start_classifier (r : StartResp) :
    start_emulator_ok r = true ↔ ClaimSuccess r := by
  cases r with
  | exn m => simp [start_emulator_ok, ClaimSuccess]
  | http ok st body txt =>
    cases ok with
    | false => simp [start_emulator_ok, ClaimSuccess]
    | true =>
      cases body with
      | none =>
        have hk : dictGet [(keyText, PyVal.pstr txt)] keyCode = none := by
          unfold dictGet
          rw [if_neg (by decide)]
          rfl
        simp [start_emulator_ok, ClaimSuccess, respData, hk, pyEqZero]
      | some v =>
        cases v with
        | pnull => simp [start_emulator_ok, ClaimSuccess, respData]
        | pbool b => simp [start_emulator_ok, ClaimSuccess, respData]
        | pint n => simp [start_emulator_ok, ClaimSuccess, respData]
        | pstr s => simp [start_emulator_ok, ClaimSuccess, respData]
        | parr l => simp [start_emulator_ok, ClaimSuccess, respData]
        | pobj m =>
          simp only [start_emulator_ok, ClaimSuccess, respData]
          cases hcz : pyEqZero ((dictGet m keyCode).getD PyVal.pnull) with
          | false => simp [hcz]
          | true =>
            simp only [hcz, if_true]
            cases hd : dictGet m keyData with
            | none => simp [hd]
            | some dv =>
              cases dv with
              | pnull => simp [hd]
              | pbool b => simp [hd]
              | pint n => simp [hd]
              | pstr s => simp [hd]
              | parr l => simp [hd]
              | pobj m2 =>
                cases he : dictGet m2 keyEmulatorId with
                | none => simp [hd, he]
                | some w => simp [hd, he, hcz]

/-- A fully successful /start_emulator response. -/
def respSuccessExample : StartResp :=
  StartResp.http true 200
    (some (PyVal.pobj [(keyCode, PyVal.pint 0),
      (keyData, PyVal.pobj [(keyEmulatorId, PyVal.pstr ("emu-1".data))])])) []

/-- Witness for C8: a status-OK response whose body carries code 0 and a
non-empty emulator_id is classified as a success. -/
theorem C8_start_classifier_witness :
    start_emulator_ok respSuccessExample = true :=
  (C8_start_classifier respSuccessExample).mpr
    ⟨rfl, [(keyCode, PyVal.pint 0),
      (keyData, PyVal.pobj [(keyEmulatorId, PyVal.pstr ("emu-1".data))])], rfl,
      by decide, [(keyEmulatorId, PyVal.pstr ("emu-1".data))],
      PyVal.pstr ("emu-1".data), rfl, rfl, by decide⟩

/-- Witness for C4's generic balanced-distribution clause at the run the
scenario produces: 10 allocations on each server. -/
theorem C4_multi_server_distribution_witness :
    balanced_distribution (List.replicate 10 (some false) ++
      List.replicate 10 (some true)) = true :=
  (C4_multi_server_distribution.2.2.2.2.2
    (List.replicate 10 (some false) ++ List.replicate 10 (some true))).mpr
    ⟨by decide, by decide, by decide⟩

/-- Witness for C10 at a failed Docker connection: the sweep reports (0, 0)
and the script exits 0. -/
theorem C10_exit_status_witness :
    mainExit false 0 0 false [] = 0 :=
  (C10_exit_status true 0 0 false []).2.2.2

end GUIDockerEnv
